import Mathlib

set_option maxRecDepth 4000

/-!
Verification of the uc3m_money record validator / flat-file store.

Shallow embedding of the Python sources:
  * `transfer_request.py`  — class `TransferRequest` and its field validators
  * `account_deposit.py`   — class `AccountDeposit`, its validator, signature
                             derivation and `save_to_file`
  * `account_manager.py`   — `AccountManager.validate_iban` and
                             `AccountManager.calculate_balance`

Python floats are modelled by exact decimal numbers (`PyFloat`): every
value appearing in the spec and the tests is a short decimal literal, for
which CPython's shortest-round-trip `str`/`repr` prints exactly the
normalized decimal form modelled here.  File-system state is passed
explicitly: a file is `Option` (absent / present with parsed contents).
Time is passed as an explicit parameter where the code reads the clock.

Python string operations (`strip`, `split`, `replace`, `startswith`) are
embedded as structural recursions over the character list of the string,
so every definition evaluates inside the kernel.
-/

/-!
## Python string primitives
-/

/-- `s.startswith(p)` on character lists. -/
def charsStartWith : List Char → List Char → Bool
  | _, [] => true
  | [], _ :: _ => false
  | c :: cs, p :: ps => c = p && charsStartWith cs ps

/-- Whitespace for `str.strip()` (the forms occurring in this code base). -/
def pyIsSpace (c : Char) : Bool :=
  c = ' ' || c = '\t' || c = '\n' || c = '\r'

/-- `s.strip()` on character lists. -/
def charsStrip (l : List Char) : List Char :=
  ((l.dropWhile pyIsSpace).reverse.dropWhile pyIsSpace).reverse

/-- `s.split(sep)` for a one-character separator, on character lists:
splits at every occurrence, keeping empty pieces (`"a//b"` gives three
pieces), and yields `[[]]` on the empty string — CPython's behaviour. -/
def charsSplit (sep : Char) : List Char → List (List Char)
  | [] => [[]]
  | c :: r =>
    match charsSplit sep r with
    | cur :: rest => if c = sep then [] :: cur :: rest else (c :: cur) :: rest
    | [] => [[c]]

/-- `s.replace(pat, rep)` for a one-character pattern, on character
lists. -/
def charsReplace (pat : Char) (rep : List Char) (l : List Char) : List Char :=
  l.flatMap fun c => if c = pat then rep else [c]

/-!
## Python numbers
-/

/-- A Python float given by its exact decimal value `m / 10 ^ e`.
Covers every float arising in this code base (decimal literals and
decimal-string parses); `str` on such a float prints the normalized
decimal form (fixed notation: all values here are well inside the range
where CPython uses fixed rather than scientific notation). -/
structure PyFloat where
  m : Int
  e : Nat
deriving DecidableEq, Repr

/-- The exact rational value of a `PyFloat`. -/
def PyFloat.toRat (f : PyFloat) : Rat := (f.m : Rat) / (10 ^ f.e : Rat)

/-- Value comparison of two decimals (`float` `<=`), by
cross-multiplication — an executable form of `toRat ≤ toRat`. -/
def PyFloat.leB (a b : PyFloat) : Bool :=
  decide (a.m * (10 : Int) ^ b.e ≤ b.m * (10 : Int) ^ a.e)

/-- Exact decimal addition (`float` addition on the values arising
here, which are all exactly representable sums). -/
def PyFloat.add (a b : PyFloat) : PyFloat :=
  let e := max a.e b.e
  ⟨a.m * 10 ^ (e - a.e) + b.m * 10 ^ (e - b.e), e⟩

/-- Drop trailing zero decimal digits: the mantissa/exponent pair CPython's
shortest-round-trip `repr` prints (`10.10` prints as `"10.1"`). -/
def PyFloat.normAux : Int → Nat → Int × Nat
  | m, 0 => (m, 0)
  | m, e + 1 => if m % 10 = 0 then PyFloat.normAux (m / 10) e else (m, e + 1)

/-- Normalized form of a `PyFloat` (no trailing fractional zeros). -/
def PyFloat.normalize (f : PyFloat) : PyFloat :=
  let p := PyFloat.normAux f.m f.e
  ⟨p.1, p.2⟩

/-- Decimal digits of a natural number below `10 ^ fuel`, most
significant first (structural recursion on the fuel). -/
def natDigitsAux : Nat → Nat → List Char
  | 0, _ => []
  | fuel + 1, n =>
    if n < 10 then [Char.ofNat (48 + n)]
    else natDigitsAux fuel (n / 10) ++ [Char.ofNat (48 + n % 10)]

/-- Decimal digits of a natural number, most significant first. -/
def natDigits (n : Nat) : List Char := natDigitsAux (n + 1) n

/-- Render a natural number padded with leading zeros to `k` digits. -/
def natDigitsPad (k n : Nat) : List Char :=
  List.replicate (k - (natDigits n).length) '0' ++ natDigits n

/-- The two components of `str(f)` around the decimal point: Python renders
every fixed-notation float with a decimal point (`str(10.0) = "10.0"`), so
`str(f).split(".")` is exactly this pair. -/
def PyFloat.strParts (f : PyFloat) : String × String :=
  let n := f.normalize
  let sign := if n.m < 0 then "-" else ""
  let a := n.m.natAbs
  if n.e = 0 then (sign ++ String.mk (natDigits a), "0")
  else (sign ++ String.mk (natDigits (a / 10 ^ n.e)),
        String.mk (natDigitsPad n.e (a % 10 ^ n.e)))

/-- `str(f)` for a Python float in fixed notation. -/
def PyFloat.str (f : PyFloat) : String :=
  (f.strParts).1 ++ "." ++ (f.strParts).2

/-- Round `a / b` to the nearest natural, ties to even (`b > 0`):
the rounding CPython's fixed-point formatting applies. -/
def natRoundHalfEven (a b : Nat) : Nat :=
  let q := a / b
  let r := a % b
  if 2 * r < b then q
  else if b < 2 * r then q + 1
  else if q % 2 = 0 then q else q + 1

/-- The value of `f` scaled by 100 and rounded to an integer: the digit
stream behind `f"{f:.2f}"`. -/
def PyFloat.scaled2 (f : PyFloat) : Nat :=
  if f.e ≤ 2 then f.m.natAbs * 10 ^ (2 - f.e)
  else natRoundHalfEven f.m.natAbs (10 ^ (f.e - 2))

/-- The two components of `f"{f:.2f}"` around the decimal point; the
fractional component always holds exactly two digits. -/
def PyFloat.format2fParts (f : PyFloat) : String × String :=
  let sign := if f.m < 0 then "-" else ""
  (sign ++ String.mk (natDigits (f.scaled2 / 100)),
   String.mk (natDigitsPad 2 (f.scaled2 % 100)))

/-- A Python value as far as these validators inspect it: a `str`, a
`float`, an `int`, or `None` (what `dict.get` yields for a missing key).
Any other runtime type behaves like `int`/`none` here: it is neither a
`str` nor a `float`, which is all the `isinstance` checks ask. -/
inductive PyValue where
  | str (s : String)
  | float (f : PyFloat)
  | int (n : Int)
  | none
deriving DecidableEq, Repr

/-- Numeric value of a nonempty digit run. -/
def digitsVal (ds : List Char) : Int :=
  ds.foldl (fun a c => a * 10 + ((c.toNat : Int) - 48)) 0

/-- `int(s)` for a string: strip surrounding whitespace, optional sign,
then a nonempty run of decimal digits.  (Underscore digit grouping and
non-ASCII digits, which CPython also accepts, never occur in this code
base and are omitted.) -/
def pyIntParse (s : String) : Option Int :=
  let t := charsStrip s.data
  let (neg, ds) :=
    match t with
    | '-' :: r => (true, r)
    | '+' :: r => (false, r)
    | r => (false, r)
  if ds ≠ [] ∧ ds.all Char.isDigit then
    some (if neg then -(digitsVal ds) else digitsVal ds)
  else Option.none

/-- `float(s)` for a string: strip surrounding whitespace, optional sign,
then `digits`, `digits.digits?`, or `.digits` (forms with an exponent,
`inf`/`nan`, and underscore grouping never occur here and are omitted). -/
def pyFloatParse (s : String) : Option PyFloat :=
  let t := charsStrip s.data
  let (neg, ds) :=
    match t with
    | '-' :: r => (true, r)
    | '+' :: r => (false, r)
    | r => (false, r)
  match charsSplit '.' ds with
  | [ip] =>
      if ip ≠ [] ∧ ip.all Char.isDigit then
        some ⟨if neg then -(digitsVal ip) else digitsVal ip, 0⟩
      else Option.none
  | [ip, fp] =>
      if (ip ++ fp) ≠ [] ∧ (ip ++ fp).all Char.isDigit then
        some ⟨if neg then -(digitsVal (ip ++ fp)) else digitsVal (ip ++ fp), fp.length⟩
      else Option.none
  | _ => Option.none

/-- `str.isalpha()` per character (the ASCII letters; Python's Unicode
alphabetic classes beyond ASCII never occur in this code base). -/
def pyIsAlpha (c : Char) : Bool := c.isAlpha

/-- `t.isalpha()`: nonempty and every character alphabetic. -/
def charsIsAlpha (t : List Char) : Bool :=
  !t.isEmpty && t.all pyIsAlpha

/-!
## SHA-256 (`hashlib.sha256(...).hexdigest()`)

A direct executable implementation over `Nat`, all word arithmetic taken
modulo `2 ^ 32`.  Messages are byte lists; strings enter through UTF-8
encoding, matching `str.encode()`.
-/

/-- UTF-8 encoding of one character, as byte values. -/
def utf8Bytes (c : Char) : List Nat :=
  let n := c.toNat
  if n < 128 then [n]
  else if n < 2048 then [192 + n / 64, 128 + n % 64]
  else if n < 65536 then [224 + n / 4096, 128 + n / 64 % 64, 128 + n % 64]
  else [240 + n / 262144, 128 + n / 4096 % 64, 128 + n / 64 % 64, 128 + n % 64]

/-- `s.encode()`: the UTF-8 bytes of a string. -/
def strBytes (s : String) : List Nat := s.data.flatMap utf8Bytes

/-- 32-bit truncation. -/
def mod32 (n : Nat) : Nat := n % 4294967296

/-- Right rotation of a 32-bit word. -/
def rotr32 (k x : Nat) : Nat := mod32 (x / 2 ^ k + x * 2 ^ (32 - k))

/-- Bitwise complement of a 32-bit word. -/
def not32 (x : Nat) : Nat := 4294967295 - x

/-- SHA-256 `Ch`. -/
def sha2Ch (x y z : Nat) : Nat := Nat.xor (Nat.land x y) (Nat.land (not32 x) z)

/-- SHA-256 `Maj`. -/
def sha2Maj (x y z : Nat) : Nat :=
  Nat.xor (Nat.xor (Nat.land x y) (Nat.land x z)) (Nat.land y z)

/-- SHA-256 `Σ0`. -/
def bigSigma0 (x : Nat) : Nat := Nat.xor (Nat.xor (rotr32 2 x) (rotr32 13 x)) (rotr32 22 x)

/-- SHA-256 `Σ1`. -/
def bigSigma1 (x : Nat) : Nat := Nat.xor (Nat.xor (rotr32 6 x) (rotr32 11 x)) (rotr32 25 x)

/-- SHA-256 `σ0`. -/
def smallSigma0 (x : Nat) : Nat := Nat.xor (Nat.xor (rotr32 7 x) (rotr32 18 x)) (x / 2 ^ 3)

/-- SHA-256 `σ1`. -/
def smallSigma1 (x : Nat) : Nat := Nat.xor (Nat.xor (rotr32 17 x) (rotr32 19 x)) (x / 2 ^ 10)

/-- The 64 SHA-256 round constants. -/
def sha2K : List Nat :=
  [1116352408, 1899447441, 3049323471, 3921009573, 961987163,
   1508970993, 2453635748, 2870763221, 3624381080, 310598401,
   607225278, 1426881987, 1925078388, 2162078206, 2614888103,
   3248222580, 3835390401, 4022224774, 264347078, 604807628,
   770255983, 1249150122, 1555081692, 1996064986, 2554220882,
   2821834349, 2952996808, 3210313671, 3336571891, 3584528711,
   113926993, 338241895, 666307205, 773529912, 1294757372,
   1396182291, 1695183700, 1986661051, 2177026350, 2456956037,
   2730485921, 2820302411, 3259730800, 3345764771, 3516065817,
   3600352804, 4094571909, 275423344, 430227734, 506948616,
   659060556, 883997877, 958139571, 1322822218, 1537002063,
   1747873779, 1955562222, 2024104815, 2227730452, 2361852424,
   2428436474, 2756734187, 3204031479, 3329325298]

/-- The SHA-256 initial hash value, eight 32-bit words. -/
def sha2H0 : List Nat :=
  [1779033703, 3144134277, 1013904242, 2773480762, 1359893119,
   2600822924, 528734635, 1541459225]

/-- `k` big-endian bytes of a natural number, most significant first. -/
def beBytes : Nat → Nat → List Nat
  | 0, _ => []
  | k + 1, n => beBytes k (n / 256) ++ [n % 256]

/-- SHA-256 padding: append `0x80`, zero bytes to 56 mod 64, then the
bit length in 8 big-endian bytes. -/
def sha2Pad (msg : List Nat) : List Nat :=
  msg ++ [128] ++ List.replicate ((119 - msg.length % 64) % 64) 0
      ++ beBytes 8 (8 * msg.length)

/-- Split a byte list into 64-byte blocks (fuel-based structural
recursion; the fuel is an upper bound on the block count). -/
def sha2BlocksAux : Nat → List Nat → List (List Nat)
  | 0, _ => []
  | fuel + 1, l => if l = [] then [] else l.take 64 :: sha2BlocksAux fuel (l.drop 64)

/-- Split a byte list into 64-byte blocks. -/
def sha2Blocks (l : List Nat) : List (List Nat) := sha2BlocksAux l.length l

/-- Pack bytes into 32-bit big-endian words. -/
def bytesToWords : List Nat → List Nat
  | a :: b :: c :: d :: rest => (((a * 256 + b) * 256 + c) * 256 + d) :: bytesToWords rest
  | _ => []

/-- One message-schedule extension step, over the reversed schedule
(most recent word first). -/
def schedStep (ws : List Nat) : Nat :=
  mod32 (smallSigma1 (ws.getD 1 0) + ws.getD 6 0 + smallSigma0 (ws.getD 14 0) + ws.getD 15 0)

/-- Extend the reversed schedule by `n` words. -/
def schedule : Nat → List Nat → List Nat
  | 0, ws => ws
  | n + 1, ws => schedule n (schedStep ws :: ws)

/-- The full 64-word message schedule of one block. -/
def sha2Schedule (block : List Nat) : List Nat :=
  (schedule 48 (bytesToWords block).reverse).reverse

/-- The eight SHA-256 working variables. -/
structure Sha2State where
  a : Nat
  b : Nat
  c : Nat
  d : Nat
  e : Nat
  f : Nat
  g : Nat
  h : Nat
deriving Repr

/-- One SHA-256 compression round with round constant `k` and schedule
word `w`. -/
def sha2Round (s : Sha2State) (kw : Nat × Nat) : Sha2State :=
  let t1 := mod32 (s.h + bigSigma1 s.e + sha2Ch s.e s.f s.g + kw.1 + kw.2)
  let t2 := mod32 (bigSigma0 s.a + sha2Maj s.a s.b s.c)
  ⟨mod32 (t1 + t2), s.a, s.b, s.c, mod32 (s.d + t1), s.e, s.f, s.g⟩

/-- Compress one 64-byte block into the running hash (eight words). -/
def sha2Compress (hsh : List Nat) (block : List Nat) : List Nat :=
  let init : Sha2State :=
    ⟨hsh.getD 0 0, hsh.getD 1 0, hsh.getD 2 0, hsh.getD 3 0,
     hsh.getD 4 0, hsh.getD 5 0, hsh.getD 6 0, hsh.getD 7 0⟩
  let s := (sha2K.zip (sha2Schedule block)).foldl sha2Round init
  [mod32 (hsh.getD 0 0 + s.a), mod32 (hsh.getD 1 0 + s.b),
   mod32 (hsh.getD 2 0 + s.c), mod32 (hsh.getD 3 0 + s.d),
   mod32 (hsh.getD 4 0 + s.e), mod32 (hsh.getD 5 0 + s.f),
   mod32 (hsh.getD 6 0 + s.g), mod32 (hsh.getD 7 0 + s.h)]

/-- The SHA-256 digest of a byte list, as eight 32-bit words. -/
def sha256Words (msg : List Nat) : List Nat :=
  (sha2Blocks (sha2Pad msg)).foldl sha2Compress sha2H0

/-- One lowercase hexadecimal digit. -/
def hexDigit (n : Nat) : Char :=
  if n < 10 then Char.ofNat (48 + n) else Char.ofNat (87 + n)

/-- `k` lowercase hex digits of a natural number, most significant first. -/
def hexN : Nat → Nat → List Char
  | 0, _ => []
  | k + 1, n => hexN k (n / 16) ++ [hexDigit (n % 16)]

/-- `hashlib.sha256(s.encode()).hexdigest()`: the SHA-256 digest of the
UTF-8 bytes of `s`, as a lowercase hexadecimal string. -/
def sha256Hex (s : String) : String :=
  String.mk ((sha256Words (strBytes s)).flatMap (hexN 8))

/-!
## `account_manager.py` — `AccountManager.validate_iban`
-/

/-- `AccountManager.validate_iban`: `False` unless the value is a string
that starts with `"ES"` and has length exactly 24 (checked in that
order; every failing input returns `False`, nothing raises). -/
def AccountManager.validate_iban (iban : PyValue) : Bool :=
  match iban with
  | .str s =>
      if !charsStartWith s.data "ES".data then false
      else if s.data.length ≠ 24 then false
      else true
  | _ => false

/-!
## `transfer_request.py` — the `TransferRequest` field validators

Each `_validate_*` method raises `AccountManagementException(msg)` on the
first violated rule; embedded as `Except String Unit` (`.error msg` for a
raise). -/

/-- `TransferRequest._validate_iban(iban, name)`. -/
def TransferRequest.validate_iban_field (iban : PyValue) (name : String) : Except String Unit :=
  match iban with
  | .str s =>
      if s.data.length ≠ 24 then .error (name ++ " must be exactly 24 characters.")
      else if !charsStartWith s.data "ES".data then
        .error (name ++ " must start with \x27ES\x27.")
      else .ok ()
  | _ => .error (name ++ " must be a string.")

/-- `TransferRequest._validate_transfer_type`. -/
def TransferRequest.validate_transfer_type (v : PyValue) : Except String Unit :=
  match v with
  | .str s =>
      if s ∉ ["ORDINARY", "URGENT", "IMMEDIATE"] then
        .error "transfer_type must be ORDINARY, URGENT, or IMMEDIATE"
      else .ok ()
  | _ => .error "transfer_type must be a string."

/-- `TransferRequest._validate_transfer_concept`: strip, split on the
space character, require exactly two parts, every part `isalpha()`, and
the stripped length between 10 and 30. -/
def TransferRequest.validate_transfer_concept (v : PyValue) : Except String Unit :=
  match v with
  | .str s =>
      let concept := charsStrip s.data
      let parts := charsSplit ' ' concept
      if parts.length ≠ 2 then .error "transfer_concept must contain exactly two words."
      else if !parts.all charsIsAlpha then .error "transfer_concept must contain only letters."
      else if !(10 ≤ concept.length ∧ concept.length ≤ 30) then
        .error "transfer_concept must be 10 to 30 characters long."
      else .ok ()
  | _ => .error "transfer_concept must be a string."

/-- `day, month, year = map(int, s.split("/"))`: succeeds only when the
split has exactly three components and each parses as an `int`
(otherwise the `ValueError` branch fires). -/
def parseDateComponents (s : String) : Option (Int × Int × Int) :=
  match (charsSplit '/' s.data).map (fun p => pyIntParse (String.mk p)) with
  | [some d, some m, some y] => some (d, m, y)
  | _ => Option.none

/-- `TransferRequest._validate_transfer_date`. -/
def TransferRequest.validate_transfer_date (v : PyValue) : Except String Unit :=
  match v with
  | .str s =>
      match parseDateComponents s with
      | Option.none => .error "transfer_date must be in DD/MM/YYYY format."
      | some (day, month, year) =>
          if !(1 ≤ day ∧ day ≤ 31) then .error "Day must be between 1 and 31."
          else if !(1 ≤ month ∧ month ≤ 12) then .error "Month must be between 1 and 12."
          else if !(2025 ≤ year ∧ year < 2051) then .error "Year must be between 2025 and 2050."
          else .ok ()
  | _ => .error "transfer_date must be a string."

/-- `TransferRequest._validate_transfer_amount`: type check, range check
on the value, then `len(f"{amount:.2f}".split(".")[1]) > 2`. -/
def TransferRequest.validate_transfer_amount (v : PyValue) : Except String Unit :=
  match v with
  | .float f =>
      if !(PyFloat.leB ⟨10, 0⟩ f && PyFloat.leB f ⟨10000, 0⟩) then
        .error "transfer_amount must be between 10.00 and 10000.00."
      else if (f.format2fParts).2.data.length > 2 then
        .error "transfer_amount must have at most 2 decimal places."
      else .ok ()
  | _ => .error "transfer_amount must be a float."

/-- A validated `TransferRequest` instance: the fields as `__init__`
leaves them (validation passed, so the typed forms are known). -/
structure TransferRequest where
  from_iban : String
  to_iban : String
  transfer_type : String
  transfer_concept : String
  transfer_date : String
  transfer_amount : PyFloat
  time_stamp : PyFloat
deriving DecidableEq, Repr

/-- `TransferRequest.validate`: the six validators in source order,
first failure wins. -/
def TransferRequest.validateAll (from_iban to_iban ttype concept date amount : PyValue) :
    Except String Unit := do
  TransferRequest.validate_iban_field from_iban "from_iban"
  TransferRequest.validate_iban_field to_iban "to_iban"
  TransferRequest.validate_transfer_type ttype
  TransferRequest.validate_transfer_concept concept
  TransferRequest.validate_transfer_date date
  TransferRequest.validate_transfer_amount amount

/-- The dictionary `TransferRequest.to_json()` emits (the eight keys of
§6 of the spec); the transfer code enters as a computed string. -/
structure TransferJson where
  from_iban : String
  to_iban : String
  transfer_type : String
  transfer_amount : PyFloat
  transfer_concept : String
  transfer_date : String
  time_stamp : PyFloat
  transfer_code : String
deriving DecidableEq, Repr

/-- Modelled from the spec: `TransferRequest.save_to_file` is not present
in the source tree (only its unit tests call it); §4.3 of the spec fixes
its behaviour: the same load / duplicate-check / append / rewrite
protocol as the deposit store, with duplicate error message
`"Duplicate transfer detected."`.  The file is `Option` (absent gives an
empty record sequence); the result pairs the outcome with the file state
after the call. -/
def TransferRequest.save_to_file (j : TransferJson) (fs : Option (List TransferJson)) :
    Except String Unit × Option (List TransferJson) :=
  let data := fs.getD []
  if data.any (fun entry => decide (entry = j)) then
    (.error "Duplicate transfer detected.", fs)
  else
    (.ok (), some (data ++ [j]))

/-!
## `account_deposit.py` — the `AccountDeposit` class
-/

/-- An `AccountDeposit` instance: the fields `__init__` assigns.
`alg` and `typ` are carried explicitly (always `"SHA-256"` and
`"DEPOSIT"` at construction, but the signature reads the current
values). -/
structure AccountDeposit where
  alg : String
  typ : String
  to_iban : String
  deposit_amount : PyFloat
  deposit_date : PyFloat
deriving DecidableEq, Repr

/-- `AccountDeposit.validate` over the raw constructor inputs: IBAN type /
length / prefix, then amount type / range, then the decimal-place check
on `str(amount)` (the string always contains a point in fixed notation,
so the `"." in str(...)` guard is passed and the part after the point is
inspected). -/
def AccountDeposit.validateFields (to_iban deposit_amount : PyValue) : Except String Unit :=
  match to_iban with
  | .str s =>
      if s.data.length ≠ 24 then .error "to_iban must be exactly 24 characters."
      else if !charsStartWith s.data "ES".data then
        .error "to_iban must start with \x27ES\x27."
      else
        match deposit_amount with
        | .float f =>
            if !(PyFloat.leB ⟨10, 0⟩ f && PyFloat.leB f ⟨10000, 0⟩) then
              .error "deposit_amount must be between 10.00 and 10000.00."
            else if (f.strParts).2.data.length > 2 then
              .error "deposit_amount must have at most 2 decimal places."
            else .ok ()
        | _ => .error "deposit_amount must be a float."
  | _ => .error "to_iban must be a string."

/-- `AccountDeposit.__init__`: validate, then the instance with the two
constant tags and the captured UTC timestamp `now`. -/
def AccountDeposit.init (to_iban deposit_amount : PyValue) (now : PyFloat) :
    Except String AccountDeposit :=
  match AccountDeposit.validateFields to_iban deposit_amount with
  | .error e => .error e
  | .ok () =>
      match to_iban, deposit_amount with
      | .str s, .float f => .ok ⟨"SHA-256", "DEPOSIT", s, f, now⟩
      | _, _ => .error "unreachable"

/-- `AccountDeposit.__signature_string`: the fixed template around the
current field values (`str` is applied to each as in the source). -/
def AccountDeposit.signatureString (d : AccountDeposit) : String :=
  "\x7balg:" ++ d.alg ++ ",typ:" ++ d.typ ++ ",iban:" ++ d.to_iban ++
    ",amount:" ++ d.deposit_amount.str ++ ",deposit_date:" ++ d.deposit_date.str ++ "\x7d"

/-- The `deposit_signature` property: recomputed on every read as the
SHA-256 hex digest of the signature string — a plain function of the
current fields, with no cached state anywhere in the instance. -/
def AccountDeposit.deposit_signature (d : AccountDeposit) : String :=
  sha256Hex d.signatureString

/-- The dictionary `AccountDeposit.to_json()` emits. -/
structure AccountDepositJson where
  alg : String
  typ : String
  to_iban : String
  deposit_amount : PyFloat
  deposit_date : PyFloat
  deposit_signature : String
deriving DecidableEq, Repr

/-- `AccountDeposit.to_json()`: the six keys, the signature freshly
computed from the current fields. -/
def AccountDeposit.to_json (d : AccountDeposit) : AccountDepositJson :=
  ⟨d.alg, d.typ, d.to_iban, d.deposit_amount, d.deposit_date, d.deposit_signature⟩

/-- The setter `deposit_amount.setter` (plain assignment, no
re-validation). -/
def AccountDeposit.setAmount (d : AccountDeposit) (v : PyFloat) : AccountDeposit :=
  { d with deposit_amount := v }

/-- The setter `to_iban.setter` (plain assignment, no re-validation). -/
def AccountDeposit.setToIban (d : AccountDeposit) (v : String) : AccountDeposit :=
  { d with to_iban := v }

/-- The setter `deposit_date.setter` (plain assignment, no
re-validation). -/
def AccountDeposit.setDate (d : AccountDeposit) (v : PyFloat) : AccountDeposit :=
  { d with deposit_date := v }

/-- The body of `AccountDeposit.save_to_file` inside the `try`: load the
existing records (absent file gives `[]`), raise on an exact duplicate of
the current serialization, else append and rewrite the whole file. -/
def AccountDeposit.save_body (j : AccountDepositJson) (fs : Option (List AccountDepositJson)) :
    Except String (List AccountDepositJson) :=
  let data := fs.getD []
  if data.any (fun entry => decide (entry = j)) then
    .error "Duplicate deposit entry detected."
  else .ok (data ++ [j])

/-- `AccountDeposit.save_to_file`: the `except Exception` wrapper catches
every failure of the body — the duplicate raise included — and
re-raises with the generic prefix and `str(e)` (the original message
text).  Returns the outcome paired with the file state after the call:
on failure the file is untouched (the body raises before writing). -/
def AccountDeposit.save_to_file (j : AccountDepositJson) (fs : Option (List AccountDepositJson)) :
    Except String Unit × Option (List AccountDepositJson) :=
  match AccountDeposit.save_body j fs with
  | .error e => (.error ("Error saving deposit to file: " ++ e), fs)
  | .ok newData => (.ok (), some newData)

/-!
## `account_manager.py` — `AccountManager.calculate_balance`
-/

/-- One parsed entry of `transactions.json`: presence and value of the
`"IBAN"` and `"amount"` keys (string values, per §6 of the spec). -/
structure TxEntry where
  iban : Option String
  amount : Option String
deriving DecidableEq, Repr

/-- The observable states of the transactions file: absent
(`FileNotFoundError`), unparseable (`json.JSONDecodeError`), or a parsed
list of entries. -/
inductive TxFile where
  | missing
  | invalid
  | entries (txs : List TxEntry)
deriving DecidableEq, Repr

/-- The balance record written on success: `{IBAN, timestamp, balance}`. -/
structure BalanceData where
  iban : String
  timestamp : PyFloat
  balance : PyFloat
deriving DecidableEq, Repr

/-- `tx.get("amount", "").replace(" ", "").replace(",", ".")`: the
cleaned amount text of an entry (missing key defaulting to `""`). -/
def cleanAmount (tx : TxEntry) : String :=
  String.mk (charsReplace ',' ['.'] (charsReplace ' ' [] (tx.amount.getD "").data))

/-- The `for tx in transactions` loop: an entry matches when it has an
`"IBAN"` key equal to the target; each match's cleaned amount text is
parsed as a float, raising the format error when the parse fails;
matches accumulate into the running total. -/
def scanTransactions (iban : String) : List TxEntry → Bool → PyFloat →
    Except String (Bool × PyFloat)
  | [], found, total => .ok (found, total)
  | tx :: rest, found, total =>
      if tx.iban = some iban then
        match pyFloatParse (cleanAmount tx) with
        | some f => scanTransactions iban rest true (total.add f)
        | Option.none => .error "Invalid amount format in transactions"
      else scanTransactions iban rest found total

/-- `AccountManager.calculate_balance`: validate the IBAN, load the
fixed transactions file, scan and sum matches, fail when no entry
matched, else write the balance record (file name interpolated from the
identifier) and return `True`.  The write always succeeds in the model;
success carries the written record — there is no `return False` path. -/
def AccountManager.calculate_balance (iban_number : String) (now : PyFloat) (fs : TxFile) :
    Except String BalanceData :=
  if !AccountManager.validate_iban (.str iban_number) then .error "Invalid IBAN"
  else
    match fs with
    | .missing => .error "Transactions file not found"
    | .invalid => .error "Transactions file is not valid JSON"
    | .entries txs =>
        match scanTransactions iban_number txs false ⟨0, 0⟩ with
        | .error e => .error e
        | .ok (found, total) =>
            if !found then .error "IBAN not found in transactions"
            else .ok ⟨iban_number, now, total⟩

/-!
## Spec-side auxiliary notions
-/

/-- Whitespace-run tokenization (Python's argumentless `str.split()`):
maximal whitespace-free tokens, empties discarded.  Used to state the
spec's "two whitespace-separated tokens" reading of the concept rule. -/
def whitespaceTokens (l : List Char) : List (List Char) :=
  (l.splitOnP pyIsSpace).filter (fun t => t ≠ [])

/-- Spec-side sum: the exact values of the parsed cleaned amounts of the
entries matching the target identifier. -/
def sumMatchedAmounts (iban : String) (txs : List TxEntry) : Rat :=
  ((txs.filter (fun tx => tx.iban = some iban)).map
    (fun tx => ((pyFloatParse (cleanAmount tx)).getD ⟨0, 0⟩).toRat)).sum

/-!
## Helper lemmas
-/

/-- `charsStartWith` decides the list-prefix relation. -/
theorem charsStartWith_iff (l p : List Char) : charsStartWith l p = true ↔ p <+: l := by
  induction p generalizing l with
  | nil => simp [charsStartWith]
  | cons c cs ih =>
      cases l with
      | nil => simp [charsStartWith]
      | cons a as =>
          simp only [charsStartWith, Bool.and_eq_true, decide_eq_true_eq, ih,
            List.cons_prefix_cons]
          exact ⟨fun ⟨h1, h2⟩ => ⟨h1.symm, h2⟩, fun ⟨h1, h2⟩ => ⟨h1.symm, h2⟩⟩

/-- `natDigitsAux` emits at most `k` digits for a number below `10 ^ k`. -/
theorem natDigitsAux_length_le (fuel : Nat) :
    ∀ n k, 1 ≤ k → n < 10 ^ k → (natDigitsAux fuel n).length ≤ k := by
  induction fuel with
  | zero => intro n k _ _; simp [natDigitsAux]
  | succ fuel ih =>
      intro n k hk hn
      by_cases h : n < 10
      · simp [natDigitsAux, h]; omega
      · have h10 : (10 : Nat) ^ k = 10 ^ (k - 1) * 10 := by
          conv_lhs => rw [show k = (k - 1) + 1 by omega]
          ring
        have hk2 : 2 ≤ k := by
          rcases Nat.lt_or_ge k 2 with hlt | hge
          · exfalso
            have hk1 : k = 1 := by omega
            rw [hk1, pow_one] at hn
            omega
          · exact hge
        have hdiv : n / 10 < 10 ^ (k - 1) := by
          rw [h10] at hn
          omega
        have hrec := ih (n / 10) (k - 1) (by omega) hdiv
        simp only [natDigitsAux, if_neg h, List.length_append, List.length_cons,
          List.length_nil]
        omega

/-!
## The claims
-/

/-- C6.  `AccountManager.validate_iban` returns `true` exactly on strings
of length 24 that start with `"ES"`; every other input — wrong type
included — yields `false` (the function has no raising path). -/
theorem claim_C6_validate_iban (v : PyValue) :
    AccountManager.validate_iban v = true ↔
      ∃ s : String, v = PyValue.str s ∧ s.data.length = 24 ∧ "ES".data <+: s.data := by
  cases v with
  | str s =>
      constructor
      · intro h
        by_cases hp : charsStartWith s.data "ES".data
        · by_cases hl : s.data.length = 24
          · exact ⟨s, rfl, hl, (charsStartWith_iff _ _).mp hp⟩
          · exfalso
            simp [AccountManager.validate_iban, hp, hl] at h
            exact hl h
        · simp [AccountManager.validate_iban, hp] at h
      · rintro ⟨t, ht, hl, hpre⟩
        injection ht with hst
        subst hst
        simp [AccountManager.validate_iban, (charsStartWith_iff _ _).mpr hpre, hl]
  | float f => simp [AccountManager.validate_iban]
  | int n => simp [AccountManager.validate_iban]
  | none => simp [AccountManager.validate_iban]

/-- C7.  The transfer date validator accepts exactly the strings whose
`"/"`-split yields three integer-parsing components with day in 1–31,
month in 1–12 and year in [2025, 2051); there is no calendar
cross-check, so `"31/02/2025"` is accepted; and each violated condition
produces its own distinct message. -/
theorem claim_C7_transfer_date :
    (∀ v : PyValue, TransferRequest.validate_transfer_date v = .ok () ↔
      ∃ (s : String) (d m y : Int), v = PyValue.str s ∧
        parseDateComponents s = some (d, m, y) ∧
        (1 ≤ d ∧ d ≤ 31) ∧ (1 ≤ m ∧ m ≤ 12) ∧ (2025 ≤ y ∧ y < 2051)) ∧
    TransferRequest.validate_transfer_date (.str "31/02/2025") = .ok () ∧
    (∀ v : PyValue, (∀ s : String, v ≠ .str s) →
      TransferRequest.validate_transfer_date v = .error "transfer_date must be a string.") ∧
    (∀ s : String, parseDateComponents s = Option.none →
      TransferRequest.validate_transfer_date (.str s) =
        .error "transfer_date must be in DD/MM/YYYY format.") ∧
    (∀ (s : String) (d m y : Int), parseDateComponents s = some (d, m, y) →
      ¬(1 ≤ d ∧ d ≤ 31) →
      TransferRequest.validate_transfer_date (.str s) =
        .error "Day must be between 1 and 31.") ∧
    (∀ (s : String) (d m y : Int), parseDateComponents s = some (d, m, y) →
      (1 ≤ d ∧ d ≤ 31) → ¬(1 ≤ m ∧ m ≤ 12) →
      TransferRequest.validate_transfer_date (.str s) =
        .error "Month must be between 1 and 12.") ∧
    (∀ (s : String) (d m y : Int), parseDateComponents s = some (d, m, y) →
      (1 ≤ d ∧ d ≤ 31) → (1 ≤ m ∧ m ≤ 12) → ¬(2025 ≤ y ∧ y < 2051) →
      TransferRequest.validate_transfer_date (.str s) =
        .error "Year must be between 2025 and 2050.") ∧
    List.Pairwise (fun a b => a ≠ b)
      ["transfer_date must be a string.", "transfer_date must be in DD/MM/YYYY format.",
       "Day must be between 1 and 31.", "Month must be between 1 and 12.",
       "Year must be between 2025 and 2050."] := by
  refine ⟨?_, by rfl, ?_, ?_, ?_, ?_, ?_, by decide⟩
  · intro v
    cases v with
    | str s =>
        cases hparse : parseDateComponents s with
        | none => simp [TransferRequest.validate_transfer_date, hparse]
        | some t =>
            obtain ⟨d, m, y⟩ := t
            by_cases hd : 1 ≤ d ∧ d ≤ 31
            · by_cases hm : 1 ≤ m ∧ m ≤ 12
              · by_cases hy : 2025 ≤ y ∧ y < 2051
                · simp only [TransferRequest.validate_transfer_date, hparse,
                    decide_eq_true hd, decide_eq_true hm, decide_eq_true hy,
                    Bool.not_true, Bool.false_eq_true, if_false, PyValue.str.injEq,
                    Option.some.injEq, Prod.mk.injEq, exists_eq_left']
                  constructor
                  · intro _
                    exact ⟨s, d, m, y, rfl, hparse, hd, hm, hy⟩
                  · intro _
                    trivial
                · simp [TransferRequest.validate_transfer_date, hparse,
                    decide_eq_true hd, decide_eq_true hm, decide_eq_false hy, hy]
                  omega
              · simp [TransferRequest.validate_transfer_date, hparse,
                  decide_eq_true hd, decide_eq_false hm, hm]
                omega
            · simp [TransferRequest.validate_transfer_date, hparse, decide_eq_false hd, hd]
              omega
    | float f => simp [TransferRequest.validate_transfer_date]
    | int n => simp [TransferRequest.validate_transfer_date]
    | none => simp [TransferRequest.validate_transfer_date]
  · intro v hv
    cases v with
    | str s => exact absurd rfl (hv s)
    | float f => rfl
    | int n => rfl
    | none => rfl
  · intro s hp
    simp [TransferRequest.validate_transfer_date, hp]
  · intro s d m y hp hd
    simp [TransferRequest.validate_transfer_date, hp, decide_eq_false hd]
  · intro s d m y hp hd hm
    simp [TransferRequest.validate_transfer_date, hp, decide_eq_true hd, decide_eq_false hm]
  · intro s d m y hp hd hm hy
    simp [TransferRequest.validate_transfer_date, hp, decide_eq_true hd, decide_eq_true hm,
      decide_eq_false hy]

/-- Witness for C7 at concrete dates: the calendar-invalid
`"31/02/2025"` is accepted, and an out-of-range day yields the day
message. -/
theorem claim_C7_witness :
    TransferRequest.validate_transfer_date (.str "40/02/2025") =
      .error "Day must be between 1 and 31." ∧
    TransferRequest.validate_transfer_date (.str "31/02/2025") = .ok () :=
  ⟨claim_C7_transfer_date.2.2.2.2.1 "40/02/2025" 40 2 2025 (by decide) (by decide),
   claim_C7_transfer_date.2.1⟩

/-- C8, counterexample.  The claim reads the concept rule as "splits into
exactly two whitespace-separated tokens".  `"abcde\tfghij"` (11
characters) splits on whitespace into the two alphabetic tokens
`"abcde"` and `"fghij"` and its trimmed length is in [10, 30], so the
claim accepts it — but the code splits on the space character only
(`concept.split(" ")`), sees a single part, and rejects it with the
two-words message. -/
theorem claim_C8_counterexample :
    whitespaceTokens (charsStrip "abcde\tfghij".data) = ["abcde".data, "fghij".data] ∧
    (whitespaceTokens (charsStrip "abcde\tfghij".data)).all charsIsAlpha = true ∧
    (charsStrip "abcde\tfghij".data).length = 11 ∧
    TransferRequest.validate_transfer_concept (.str "abcde\tfghij") =
      .error "transfer_concept must contain exactly two words." :=
  ⟨by decide, by decide, by decide, by rfl⟩

/-- C8, amended.  The concept validator accepts exactly the strings
whose trim splits on the space character (not on arbitrary whitespace)
into exactly two alphabetic tokens with trimmed length in [10, 30]; a
10-character two-token concept passes, 9- and 31-character ones fail. -/
theorem claim_C8_concept_amended :
    (∀ v : PyValue, TransferRequest.validate_transfer_concept v = .ok () ↔
      ∃ s : String, v = PyValue.str s ∧
        ∃ t1 t2 : List Char, charsSplit ' ' (charsStrip s.data) = [t1, t2] ∧
          charsIsAlpha t1 = true ∧ charsIsAlpha t2 = true ∧
          (10 ≤ (charsStrip s.data).length ∧ (charsStrip s.data).length ≤ 30)) ∧
    TransferRequest.validate_transfer_concept (.str "abcde fghi") = .ok () ∧
    TransferRequest.validate_transfer_concept (.str "abcd efgh") =
      .error "transfer_concept must be 10 to 30 characters long." ∧
    TransferRequest.validate_transfer_concept (.str "abcdefghijklmno abcdefghijklmno") =
      .error "transfer_concept must be 10 to 30 characters long." := by
  refine ⟨?_, by rfl, by rfl, by rfl⟩
  intro v
  cases v with
  | str s =>
      cases hsplit : charsSplit ' ' (charsStrip s.data) with
      | nil => simp [TransferRequest.validate_transfer_concept, hsplit]
      | cons t1 rest =>
          cases rest with
          | nil => simp [TransferRequest.validate_transfer_concept, hsplit]
          | cons t2 rest2 =>
              cases rest2 with
              | cons t3 rest3 => simp [TransferRequest.validate_transfer_concept, hsplit]
              | nil =>
                  by_cases h1 : charsIsAlpha t1 = true
                  · by_cases h2 : charsIsAlpha t2 = true
                    · by_cases hlen :
                        10 ≤ (charsStrip s.data).length ∧ (charsStrip s.data).length ≤ 30
                      · simp [TransferRequest.validate_transfer_concept, hsplit, h1, h2,
                          decide_eq_true hlen, hlen]
                        exact ⟨t1, t2, ⟨rfl, rfl⟩, h1, h2⟩
                      · simp [TransferRequest.validate_transfer_concept, hsplit, h1, h2,
                          decide_eq_false hlen, hlen]
                    · simp [TransferRequest.validate_transfer_concept, hsplit, h1,
                        Bool.eq_false_iff.mpr h2, h2]
                  · simp [TransferRequest.validate_transfer_concept, hsplit,
                      Bool.eq_false_iff.mpr h1, h1]
  | float f => simp [TransferRequest.validate_transfer_concept]
  | int n => simp [TransferRequest.validate_transfer_concept]
  | none => simp [TransferRequest.validate_transfer_concept]

/-- `natDigitsPad 2` renders numbers below 100 in exactly two digits. -/
theorem natDigitsPad_two_length (n : Nat) (h : n < 100) : (natDigitsPad 2 n).length = 2 := by
  have hle : (natDigitsAux (n + 1) n).length ≤ 2 :=
    natDigitsAux_length_le (n + 1) n 2 (by omega) (by norm_num; omega)
  simp only [natDigitsPad, natDigits, List.length_append, List.length_replicate]
  omega

/-- The fractional component of `f"{f:.2f}"` always holds exactly two
digits (it is the 2-padded rendering of a residue below 100). -/
theorem format2fParts_frac_length (f : PyFloat) :
    ((PyFloat.format2fParts f).2).data.length = 2 := by
  have h : f.scaled2 % 100 < 100 := Nat.mod_lt _ (by omega)
  simp only [PyFloat.format2fParts, String.data]
  exact natDigitsPad_two_length _ h

/-- C2.  The transfer amount check diverges from the deposit amount
check: `40.123` (in range, three decimal digits) is accepted by the
transfer validator but rejected by the deposit validator — the transfer
code measures the decimals of `f"{amount:.2f}"`, which always has
exactly two, so its decimal-place branch can never fire for any float
(the repo's own unit test expects `40.123` to be rejected). -/
theorem claim_C2_amount_check_divergence :
    TransferRequest.validate_transfer_amount (.float ⟨40123, 3⟩) = .ok () ∧
    AccountDeposit.validateFields (.str "ES1234567890123456789012") (.float ⟨40123, 3⟩) =
      .error "deposit_amount must have at most 2 decimal places." ∧
    ∀ v : PyValue, TransferRequest.validate_transfer_amount v ≠
      .error "transfer_amount must have at most 2 decimal places." := by
  refine ⟨by rfl, by rfl, ?_⟩
  intro v
  cases v with
  | float f =>
      by_cases hr : (PyFloat.leB ⟨10, 0⟩ f && PyFloat.leB f ⟨10000, 0⟩) = true
      · simp [TransferRequest.validate_transfer_amount, hr,
          format2fParts_frac_length f]
      · simp only [TransferRequest.validate_transfer_amount,
          Bool.eq_false_iff.mpr hr, Bool.not_false, if_true]
        intro h
        exact absurd (Except.error.inj h) (by decide)
  | str s =>
      intro h
      exact absurd (Except.error.inj h) (by decide)
  | int n =>
      intro h
      exact absurd (Except.error.inj h) (by decide)
  | none =>
      intro h
      exact absurd (Except.error.inj h) (by decide)

/-- `hexN k` always emits exactly `k` characters. -/
theorem hexN_length (k : Nat) : ∀ n, (hexN k n).length = k := by
  induction k with
  | zero => intro n; rfl
  | succ k ih => intro n; simp [hexN, ih]

/-- One compression step yields eight words. -/
theorem sha2Compress_length (h b : List Nat) : (sha2Compress h b).length = 8 := rfl

/-- The digest always consists of eight words. -/
theorem sha256Words_length (msg : List Nat) : (sha256Words msg).length = 8 := by
  have key : ∀ (bs : List (List Nat)) (h : List Nat), h.length = 8 →
      (bs.foldl sha2Compress h).length = 8 := by
    intro bs
    induction bs with
    | nil => intro h hh; simpa using hh
    | cons b rest ih =>
        intro h hh
        simpa [List.foldl_cons] using ih (sha2Compress h b) (sha2Compress_length h b)
  exact key _ sha2H0 rfl

/-- Flat-mapping `hexN 8` multiplies the length by eight. -/
theorem flatMap_hexN_length (l : List Nat) : (l.flatMap (hexN 8)).length = 8 * l.length := by
  induction l with
  | nil => rfl
  | cons a rest ih =>
      simp [List.flatMap_cons, hexN_length, ih]
      omega

/-- A SHA-256 hex digest has exactly 64 characters. -/
theorem sha256Hex_data_length (s : String) : (sha256Hex s).data.length = 64 := by
  show ((sha256Words (strBytes s)).flatMap (hexN 8)).length = 64
  rw [flatMap_hexN_length, sha256Words_length]

/-- Each hex digit below 16 renders into the lowercase hex alphabet. -/
theorem hexDigit_mem_alphabet : ∀ m, m < 16 → hexDigit m ∈ ("0123456789abcdef").data := by
  decide

/-- Every character `hexN` emits is a lowercase hex digit. -/
theorem hexN_mem_alphabet (k : Nat) :
    ∀ n, ∀ c ∈ hexN k n, c ∈ ("0123456789abcdef").data := by
  induction k with
  | zero => intro n c hc; simp [hexN] at hc
  | succ k ih =>
      intro n c hc
      simp only [hexN, List.mem_append, List.mem_singleton] at hc
      rcases hc with hc | hc
      · exact ih (n / 16) c hc
      · subst hc
        exact hexDigit_mem_alphabet (n % 16) (Nat.mod_lt _ (by omega))

/-- A SHA-256 hex digest uses only the lowercase hex alphabet. -/
theorem sha256Hex_mem_alphabet (s : String) :
    ∀ c ∈ (sha256Hex s).data, c ∈ ("0123456789abcdef").data := by
  intro c hc
  have hc' : c ∈ (sha256Words (strBytes s)).flatMap (hexN 8) := hc
  rw [List.mem_flatMap] at hc'
  obtain ⟨w, _, hcw⟩ := hc'
  exact hexN_mem_alphabet 8 w c hcw

/-- C4.  The exposed `deposit_signature` is exactly the SHA-256 hex
digest (64 lowercase hex characters) of the fixed template string built
from the current field values; it is a pure function of those fields —
records with identical fields expose identical signatures — and a
setter's effect is visible on the very next read with no recomputation
call, as demonstrated by a concrete mutation changing the digest. -/
theorem claim_C4_deposit_signature :
    (∀ d : AccountDeposit, d.deposit_signature =
      sha256Hex ("\x7balg:" ++ d.alg ++ ",typ:" ++ d.typ ++ ",iban:" ++ d.to_iban ++
        ",amount:" ++ d.deposit_amount.str ++ ",deposit_date:" ++ d.deposit_date.str ++
        "\x7d")) ∧
    (∀ d : AccountDeposit, (d.deposit_signature).data.length = 64) ∧
    (∀ d : AccountDeposit, ∀ c ∈ (d.deposit_signature).data,
      c ∈ ("0123456789abcdef").data) ∧
    (∀ d1 d2 : AccountDeposit, d1.alg = d2.alg → d1.typ = d2.typ →
      d1.to_iban = d2.to_iban → d1.deposit_amount = d2.deposit_amount →
      d1.deposit_date = d2.deposit_date →
      d1.deposit_signature = d2.deposit_signature) ∧
    (∀ d : AccountDeposit, (d.to_json).deposit_signature = d.deposit_signature) ∧
    (∀ (d : AccountDeposit) (v : PyFloat), (d.setAmount v).deposit_signature =
      AccountDeposit.deposit_signature ⟨d.alg, d.typ, d.to_iban, v, d.deposit_date⟩) ∧
    (∀ (d : AccountDeposit) (v : String), (d.setToIban v).deposit_signature =
      AccountDeposit.deposit_signature ⟨d.alg, d.typ, v, d.deposit_amount, d.deposit_date⟩) ∧
    (∀ (d : AccountDeposit) (v : PyFloat), (d.setDate v).deposit_signature =
      AccountDeposit.deposit_signature ⟨d.alg, d.typ, d.to_iban, d.deposit_amount, v⟩) ∧
    (AccountDeposit.deposit_signature
        ⟨"SHA-256", "DEPOSIT", "ES1234567890123456789012", ⟨2000, 1⟩, ⟨17428424001, 1⟩⟩ ≠
      AccountDeposit.deposit_signature
        ⟨"SHA-256", "DEPOSIT", "ES1234567890123456789012", ⟨1000, 1⟩, ⟨17428424001, 1⟩⟩) := by
  refine ⟨fun d => rfl, fun d => sha256Hex_data_length _, fun d => sha256Hex_mem_alphabet _,
    ?_, fun d => rfl, fun d v => rfl, fun d v => rfl, fun d v => rfl, by decide⟩
  intro d1 d2 h1 h2 h3 h4 h5
  unfold AccountDeposit.deposit_signature AccountDeposit.signatureString
  rw [h1, h2, h3, h4, h5]

/-- Witness for C4 at concrete records: identical field values give the
identical signature. -/
theorem claim_C4_witness :
    AccountDeposit.deposit_signature
        ⟨"SHA-256", "DEPOSIT", "ES1234567890123456789012", ⟨1000, 1⟩, ⟨17428424001, 1⟩⟩ =
      AccountDeposit.deposit_signature
        ⟨"SHA-256", "DEPOSIT", "ES1234567890123456789012", ⟨1000, 1⟩, ⟨17428424001, 1⟩⟩ :=
  claim_C4_deposit_signature.2.2.2.1 _ _ rfl rfl rfl rfl rfl

/-- C3.  Saving a fresh record's serialization into an absent file
succeeds and leaves exactly one entry; saving the unmutated record again
fails with the duplicate message and leaves the file untouched; in
general the duplicate failure occurs exactly when some stored entry is
field-for-field equal to the record's current serialization, and a
failing call never modifies the file. -/
theorem claim_C3_save_twice :
    (∀ d : AccountDeposit,
      AccountDeposit.save_to_file d.to_json Option.none = (.ok (), some [d.to_json]) ∧
      AccountDeposit.save_to_file d.to_json (some [d.to_json]) =
        (.error "Error saving deposit to file: Duplicate deposit entry detected.",
         some [d.to_json]) ∧
      [d.to_json].length = 1) ∧
    (∀ (j : AccountDepositJson) (data : List AccountDepositJson),
      (AccountDeposit.save_to_file j (some data)).1 =
        .error "Error saving deposit to file: Duplicate deposit entry detected." ↔
        j ∈ data) ∧
    (∀ (j : AccountDepositJson) (fs : Option (List AccountDepositJson)) (e : String),
      (AccountDeposit.save_to_file j fs).1 = .error e →
      (AccountDeposit.save_to_file j fs).2 = fs) := by
  refine ⟨?_, ?_, ?_⟩
  · intro d
    refine ⟨?_, ?_, rfl⟩
    · simp [AccountDeposit.save_to_file, AccountDeposit.save_body]
    · simp [AccountDeposit.save_to_file, AccountDeposit.save_body]
  · intro j data
    by_cases h : j ∈ data
    · have : data.any (fun entry => decide (entry = j)) = true := by
        simp [List.any_eq_true]
        exact h
      simp [AccountDeposit.save_to_file, AccountDeposit.save_body, this, h]
    · have : data.any (fun entry => decide (entry = j)) = false := by
        simp [List.any_eq_false]
        intro x hx hxj
        exact h (hxj ▸ hx)
      simp [AccountDeposit.save_to_file, AccountDeposit.save_body, this, h]
  · intro j fs e
    unfold AccountDeposit.save_to_file AccountDeposit.save_body
    by_cases h : (fs.getD []).any (fun entry => decide (entry = j)) = true
    · simp [h]
    · simp [Bool.eq_false_iff.mpr h]

/-- C9.  Every duplicate detected by `save_to_file` escapes with the
wrapped message — the internally raised bare duplicate message is
caught by the method's own `except Exception` wrapper, so the caller
only ever observes the prefixed form. -/
theorem claim_C9_wrapped_duplicate :
    (∀ (j : AccountDepositJson) (fs : Option (List AccountDepositJson)),
      j ∈ fs.getD [] →
      (AccountDeposit.save_to_file j fs).1 =
        .error "Error saving deposit to file: Duplicate deposit entry detected.") ∧
    (∀ (j : AccountDepositJson) (fs : Option (List AccountDepositJson)) (m : String),
      (AccountDeposit.save_to_file j fs).1 = .error m →
      m = "Error saving deposit to file: Duplicate deposit entry detected." ∧
      m ≠ "Duplicate deposit entry detected.") := by
  constructor
  · intro j fs hmem
    have : (fs.getD []).any (fun entry => decide (entry = j)) = true := by
      simp [List.any_eq_true]
      exact hmem
    simp [AccountDeposit.save_to_file, AccountDeposit.save_body, this]
  · intro j fs m
    unfold AccountDeposit.save_to_file AccountDeposit.save_body
    by_cases h : (fs.getD []).any (fun entry => decide (entry = j)) = true
    · simp [h]
      intro hm
      subst hm
      decide
    · simp [Bool.eq_false_iff.mpr h]

/-- Witness for C9: a concrete duplicate save escapes with the wrapped
message. -/
theorem claim_C9_witness :
    (AccountDeposit.save_to_file
        ⟨"SHA-256", "DEPOSIT", "ES1234567890123456789012", ⟨1000, 1⟩, ⟨0, 0⟩, "sig"⟩
        (some [⟨"SHA-256", "DEPOSIT", "ES1234567890123456789012", ⟨1000, 1⟩, ⟨0, 0⟩, "sig"⟩])).1 =
      .error "Error saving deposit to file: Duplicate deposit entry detected." :=
  claim_C9_wrapped_duplicate.1 _ _ (by decide)

/-- C1.  The transfer persistence operation (modelled from the spec:
absent from the source, exercised only by its unit tests) follows the
deposit store's protocol: an absent file is an empty record sequence, a
stored entry field-for-field equal to the current serialization aborts
with "Duplicate transfer detected." leaving the file unchanged, and
otherwise the serialized record is appended and the whole file
rewritten. -/
theorem claim_C1_transfer_save_protocol :
    (∀ j : TransferJson, TransferRequest.save_to_file j Option.none = (.ok (), some [j])) ∧
    (∀ (j : TransferJson) (records : List TransferJson), j ∈ records →
      TransferRequest.save_to_file j (some records) =
        (.error "Duplicate transfer detected.", some records)) ∧
    (∀ (j : TransferJson) (records : List TransferJson), j ∉ records →
      TransferRequest.save_to_file j (some records) = (.ok (), some (records ++ [j]))) := by
  refine ⟨?_, ?_, ?_⟩
  · intro j
    simp [TransferRequest.save_to_file]
  · intro j records hmem
    have : records.any (fun entry => decide (entry = j)) = true := by
      simp [List.any_eq_true]
      exact hmem
    simp [TransferRequest.save_to_file, this]
  · intro j records hmem
    have : records.any (fun entry => decide (entry = j)) = false := by
      simp [List.any_eq_false]
      intro x hx hxj
      exact hmem (hxj ▸ hx)
    simp [TransferRequest.save_to_file, this]

/-- Witness for C1 at a concrete transfer serialization: first save into
an absent file succeeds, re-saving the identical record is rejected with
the duplicate message and the stored records are unchanged. -/
theorem claim_C1_witness :
    TransferRequest.save_to_file
        ⟨"ES1234567890123456789012", "ES9351078762899406288385", "ORDINARY", ⟨4000, 1⟩,
         "Pago alquiler", "07/01/2025", ⟨17428424001, 1⟩, "code"⟩ Option.none =
      (.ok (), some [⟨"ES1234567890123456789012", "ES9351078762899406288385", "ORDINARY",
        ⟨4000, 1⟩, "Pago alquiler", "07/01/2025", ⟨17428424001, 1⟩, "code"⟩]) ∧
    TransferRequest.save_to_file
        ⟨"ES1234567890123456789012", "ES9351078762899406288385", "ORDINARY", ⟨4000, 1⟩,
         "Pago alquiler", "07/01/2025", ⟨17428424001, 1⟩, "code"⟩
        (some [⟨"ES1234567890123456789012", "ES9351078762899406288385", "ORDINARY",
          ⟨4000, 1⟩, "Pago alquiler", "07/01/2025", ⟨17428424001, 1⟩, "code"⟩]) =
      (.error "Duplicate transfer detected.",
       some [⟨"ES1234567890123456789012", "ES9351078762899406288385", "ORDINARY",
         ⟨4000, 1⟩, "Pago alquiler", "07/01/2025", ⟨17428424001, 1⟩, "code"⟩]) :=
  ⟨claim_C1_transfer_save_protocol.1 _,
   claim_C1_transfer_save_protocol.2.1 _ _ (by decide)⟩

/-- Witness for C3: a concrete failing (duplicate) save leaves the file
unchanged. -/
theorem claim_C3_witness :
    (AccountDeposit.save_to_file
        ⟨"SHA-256", "DEPOSIT", "ES1234567890123456789012", ⟨1000, 1⟩, ⟨0, 0⟩, "s"⟩
        (some [⟨"SHA-256", "DEPOSIT", "ES1234567890123456789012", ⟨1000, 1⟩, ⟨0, 0⟩, "s"⟩])).2 =
      some [⟨"SHA-256", "DEPOSIT", "ES1234567890123456789012", ⟨1000, 1⟩, ⟨0, 0⟩, "s"⟩] :=
  claim_C3_save_twice.2.2 _ _
    "Error saving deposit to file: Duplicate deposit entry detected." (by rfl)

/-- The decimal value of `0.0`. -/
theorem PyFloat.toRat_zero : PyFloat.toRat ⟨0, 0⟩ = 0 := by
  simp [PyFloat.toRat]

/-- Exact decimal addition realizes rational addition. -/
theorem PyFloat.add_toRat (a b : PyFloat) : (a.add b).toRat = a.toRat + b.toRat := by
  unfold PyFloat.add PyFloat.toRat
  have h10a : ((10 : Rat) ^ a.e) ≠ 0 := by positivity
  have h10b : ((10 : Rat) ^ b.e) ≠ 0 := by positivity
  rcases le_total a.e b.e with h | h
  · rw [max_eq_right h]
    dsimp only
    rw [Nat.sub_self, pow_zero, mul_one]
    push_cast
    rw [div_add_div _ _ h10a h10b, div_eq_div_iff (by positivity) (by positivity)]
    have hpow : (10 : Rat) ^ (b.e - a.e) * 10 ^ a.e = 10 ^ b.e := by
      rw [← pow_add]
      congr 1
      omega
    linear_combination ((a.m : Rat) * 10 ^ b.e) * hpow
  · rw [max_eq_left h]
    dsimp only
    rw [Nat.sub_self, pow_zero, mul_one]
    push_cast
    rw [div_add_div _ _ h10a h10b, div_eq_div_iff (by positivity) (by positivity)]
    have hpow : (10 : Rat) ^ (a.e - b.e) * 10 ^ b.e = 10 ^ a.e := by
      rw [← pow_add]
      congr 1
      omega
    linear_combination ((b.m : Rat) * 10 ^ a.e) * hpow

/-- The scan loop, characterized: when every matching entry's cleaned
amount parses, it succeeds with the found flag recording whether any
entry matched and the total accumulating the parsed values. -/
theorem scanTransactions_spec (iban : String) :
    ∀ (txs : List TxEntry) (found : Bool) (total : PyFloat),
      (∀ tx ∈ txs, tx.iban = some iban → (pyFloatParse (cleanAmount tx)).isSome = true) →
      ∃ total' : PyFloat,
        scanTransactions iban txs found total =
          .ok (found || !(txs.filter (fun tx => tx.iban = some iban)).isEmpty, total') ∧
        total'.toRat = total.toRat + sumMatchedAmounts iban txs := by
  intro txs
  induction txs with
  | nil =>
      intro found total _
      exact ⟨total, by simp [scanTransactions], by simp [sumMatchedAmounts]⟩
  | cons tx rest ih =>
      intro found total hp
      by_cases hm : tx.iban = some iban
      · have hsome : (pyFloatParse (cleanAmount tx)).isSome = true :=
          hp tx (List.mem_cons_self _ _) hm
        obtain ⟨f, hf⟩ := Option.isSome_iff_exists.mp hsome
        obtain ⟨total', hscan, htot⟩ := ih true (total.add f)
          (fun t ht h => hp t (List.mem_cons_of_mem _ ht) h)
        refine ⟨total', ?_, ?_⟩
        · simp only [scanTransactions, if_pos hm, hf]
          rw [hscan]
          simp [List.filter_cons, hm]
        · rw [htot, PyFloat.add_toRat]
          simp [sumMatchedAmounts, List.filter_cons, hm, hf]
          ring
      · obtain ⟨total', hscan, htot⟩ := ih found total
          (fun t ht h => hp t (List.mem_cons_of_mem _ ht) h)
        refine ⟨total', ?_, ?_⟩
        · simp only [scanTransactions, if_neg hm]
          rw [hscan]
          simp [List.filter_cons, hm]
        · rw [htot]
          simp [sumMatchedAmounts, List.filter_cons, hm]

/-- C5.  For a valid identifier and a loadable log whose matching
amounts all parse, `calculate_balance` fails with "IBAN not found in
transactions" exactly when no entry matches; otherwise it succeeds and
the written balance record carries the identifier, the timestamp, and
the exact sum of the cleaned, parsed amounts of the matching entries.
Every failure raises: the embedded result is `Except`, with `.ok` the
lone `return True` of the source and no `False`-returning path. -/
theorem claim_C5_calculate_balance :
    ∀ (iban : String) (now : PyFloat) (txs : List TxEntry),
      AccountManager.validate_iban (.str iban) = true →
      (∀ tx ∈ txs, tx.iban = some iban → (pyFloatParse (cleanAmount tx)).isSome = true) →
      ((txs.filter (fun tx => tx.iban = some iban) = [] →
        AccountManager.calculate_balance iban now (.entries txs) =
          .error "IBAN not found in transactions") ∧
       (txs.filter (fun tx => tx.iban = some iban) ≠ [] →
        ∃ b : BalanceData,
          AccountManager.calculate_balance iban now (.entries txs) = .ok b ∧
          b.iban = iban ∧ b.timestamp = now ∧
          b.balance.toRat = sumMatchedAmounts iban txs)) := by
  intro iban now txs hv hp
  obtain ⟨total', hscan, htot⟩ := scanTransactions_spec iban txs false ⟨0, 0⟩ hp
  constructor
  · intro hempty
    have hemp : (txs.filter (fun tx => tx.iban = some iban)).isEmpty = true := by
      rw [hempty]
      rfl
    rw [hemp] at hscan
    simp only [Bool.not_true, Bool.or_false] at hscan
    simp [AccountManager.calculate_balance, hv, hscan]
  · intro hne
    have hemp : (txs.filter (fun tx => tx.iban = some iban)).isEmpty = false := by
      rcases hfilter : txs.filter (fun tx => tx.iban = some iban) with _ | ⟨a, rest⟩
      · exact absurd hfilter hne
      · rw [hfilter]
        rfl
    rw [hemp] at hscan
    simp only [Bool.not_false, Bool.or_true] at hscan
    refine ⟨⟨iban, now, total'⟩, ?_, rfl, rfl, ?_⟩
    · simp [AccountManager.calculate_balance, hv, hscan]
    · rw [htot, PyFloat.toRat_zero, zero_add]

/-- Witness for C5 on the spec's example log: two matching entries with
amounts `"100.00"` and `"200,50"` yield a written balance of exactly
300.5. -/
theorem claim_C5_witness :
    ∃ b : BalanceData,
      AccountManager.calculate_balance "ES1234567890123456789012" ⟨0, 0⟩
          (.entries [⟨some "ES1234567890123456789012", some "100.00"⟩,
                     ⟨some "ES1234567890123456789012", some "200,50"⟩]) = .ok b ∧
      b.balance.toRat = (601 : Rat) / 2 := by
  obtain ⟨b, hb, _, _, hsum⟩ :=
    (claim_C5_calculate_balance "ES1234567890123456789012" ⟨0, 0⟩
      [⟨some "ES1234567890123456789012", some "100.00"⟩,
       ⟨some "ES1234567890123456789012", some "200,50"⟩]
      (by decide) (by decide)).2 (by decide)
  refine ⟨b, hb, ?_⟩
  rw [hsum]
  have h1 : pyFloatParse (cleanAmount ⟨some "ES1234567890123456789012", some "100.00"⟩) =
      some ⟨10000, 2⟩ := by rfl
  have h2 : pyFloatParse (cleanAmount ⟨some "ES1234567890123456789012", some "200,50"⟩) =
      some ⟨20050, 2⟩ := by rfl
  simp [sumMatchedAmounts, h1, h2]
  norm_num [PyFloat.toRat]

/-- C10, counterexample.  As stated the claim quantifies over every
target identifier; for the invalid identifier `"ES12"` a log entry can
carry `IBAN = "ES12"` with no amount key, yet `calculate_balance`
raises "Invalid IBAN" before ever scanning — not the amount-format
error the claim requires. -/
theorem claim_C10_counterexample :
    AccountManager.calculate_balance "ES12" ⟨0, 0⟩
        (.entries [⟨some "ES12", Option.none⟩]) = .error "Invalid IBAN" ∧
    "Invalid IBAN" ≠ "Invalid amount format in transactions" :=
  ⟨by rfl, by decide⟩

/-- C10, amended.  For a valid target identifier, a loadable log with
some entry matching the identifier but lacking the `"amount"` key makes
`calculate_balance` raise "Invalid amount format in transactions" (the
missing field defaults to `""`, whose float parse fails) — the entry is
neither skipped nor treated as zero. -/
theorem claim_C10_missing_amount :
    ∀ (iban : String) (now : PyFloat) (txs : List TxEntry),
      AccountManager.validate_iban (.str iban) = true →
      (∃ tx ∈ txs, tx.iban = some iban ∧ tx.amount = Option.none) →
      AccountManager.calculate_balance iban now (.entries txs) =
        .error "Invalid amount format in transactions" := by
  intro iban now txs hv hex
  have key : ∀ (l : List TxEntry) (found : Bool) (total : PyFloat),
      (∃ tx ∈ l, tx.iban = some iban ∧ tx.amount = Option.none) →
      scanTransactions iban l found total =
        .error "Invalid amount format in transactions" := by
    intro l
    induction l with
    | nil =>
        intro found total hw
        obtain ⟨w, hw, _⟩ := hw
        exact absurd hw (List.not_mem_nil w)
    | cons tx rest ih =>
        intro found total hw
        obtain ⟨w, hwmem, hwi, hwa⟩ := hw
        by_cases hm : tx.iban = some iban
        · cases hparse : pyFloatParse (cleanAmount tx) with
          | none => simp [scanTransactions, hm, hparse]
          | some f =>
              have hwrest : w ∈ rest := by
                rcases List.mem_cons.mp hwmem with heq | hrest
                · exfalso
                  subst heq
                  have hclean : cleanAmount w = "" := by
                    simp [cleanAmount, hwa]
                    rfl
                  rw [hclean] at hparse
                  have hnone : pyFloatParse "" = Option.none := by rfl
                  rw [hnone] at hparse
                  exact Option.noConfusion hparse
                · exact hrest
              simp only [scanTransactions, if_pos hm, hparse]
              exact ih true (total.add f) ⟨w, hwrest, hwi, hwa⟩
        · have hwrest : w ∈ rest := by
            rcases List.mem_cons.mp hwmem with heq | hrest
            · exact absurd (heq ▸ hwi) hm
            · exact hrest
          simp only [scanTransactions, if_neg hm]
          exact ih found total ⟨w, hwrest, hwi, hwa⟩
  simp [AccountManager.calculate_balance, hv, key txs false ⟨0, 0⟩ hex]

/-- Witness for C10 (amended) at a concrete log: a matching entry with
no amount key produces the amount-format error. -/
theorem claim_C10_witness :
    AccountManager.calculate_balance "ES1234567890123456789012" ⟨0, 0⟩
        (.entries [⟨some "ES1234567890123456789012", Option.none⟩]) =
      .error "Invalid amount format in transactions" :=
  claim_C10_missing_amount "ES1234567890123456789012" ⟨0, 0⟩
    [⟨some "ES1234567890123456789012", Option.none⟩] (by decide)
    ⟨⟨some "ES1234567890123456789012", Option.none⟩, List.mem_cons_self _ _, rfl, rfl⟩
